import Mathlib

/-!
Verification of the Authentication & Role-Based Access Control subsystem of
the `a2sv-backend-engineering` task-manager exercises (Go).

The development shallowly embeds:
* the role constants and `User` record of the `Domain`/`models` packages;
* the bcrypt password service (`Infrastructure.PasswordService`);
* user registration and login (`UserUsecase.RegisterUser` / `LoginUser`,
  behaviorally identical to `UserService.CreateUser` / `AuthenticateUser`);
* JWT issuance and verification (`Infrastructure.JWTService` over
  `github.com/golang-jwt/jwt/v5`);
* the authentication middleware stage (`AuthMiddleware.AuthenticateToken`).

Stateful Go code becomes explicit state passing over an in-memory list of
users; fallible Go calls (`(T, error)` returns) become `Except String`
values, with the Go error strings kept verbatim.
-/

namespace TaskManager

/-- Role constant `Domain.RoleAdmin` / `models.RoleAdmin` (the Go code stores
roles as plain strings; the tests pin `RoleAdmin = "admin"`). -/
def RoleAdmin : String := "admin"

/-- Role constant `Domain.RoleUser` / `models.RoleUser` (`"user"`). -/
def RoleUser : String := "user"

/-- A MongoDB `primitive.ObjectID`, kept opaque: only its hex rendering
(`ObjectID.Hex()`) is ever observed by the subsystem, so the model stores
that rendering directly. -/
structure ObjectID where
  hexDigits : String
deriving DecidableEq, Repr

/-- `ObjectID.Hex()`: the hex string form of the id. -/
def ObjectID.hex (o : ObjectID) : String := o.hexDigits

/-! ### Bcrypt password service

`Infrastructure.PasswordService` delegates to `golang.org/x/crypto/bcrypt`,
which is library code outside this repository. -/

/-- Modelled from the spec: the digest produced by the SecretHasher
(`bcrypt.GenerateFromPassword`, not in src). The spec describes a salted
one-way transform whose `verify(digest, candidate)` succeeds exactly when
the candidate matches the hashed secret, so the model records the salt and
the secret; verification compares the candidate against the recorded
secret. -/
structure BcryptDigest where
  salt : Nat
  secret : String
deriving DecidableEq, Repr

/-- Modelled from the spec: `bcrypt.GenerateFromPassword` (not in src).
Salted per call (`salt` is the fresh randomness); fails with
`ErrPasswordTooLong` when the input exceeds the 72-byte bound of the
reference cost function, and never fails otherwise. -/
def bcryptGenerateFromPassword (salt : Nat) (password : String) :
    Except String BcryptDigest :=
  if password.utf8ByteSize > 72 then
    .error "bcrypt: password length exceeds 72 bytes"
  else
    .ok { salt := salt, secret := password }

/-- Modelled from the spec: `bcrypt.CompareHashAndPassword` (not in src).
Returns `none` on a match and `some err` on failure; a candidate beyond the
72-byte bound fails, and otherwise the comparison fails exactly when the
candidate differs from the hashed secret. -/
def bcryptCompareHashAndPassword (digest : BcryptDigest) (password : String) :
    Option String :=
  if password.utf8ByteSize > 72 then
    some "bcrypt: password length exceeds 72 bytes"
  else if digest.secret = password then
    none
  else
    some "crypto/bcrypt: hashedPassword is not the hash of the given password"

/-- `PasswordService.HashPassword`: wraps `bcrypt.GenerateFromPassword` at
the default cost, forwarding its error. -/
def hashPassword (salt : Nat) (password : String) : Except String BcryptDigest :=
  bcryptGenerateFromPassword salt password

/-- `PasswordService.ComparePassword`: wraps
`bcrypt.CompareHashAndPassword` (`none` = match). -/
def comparePassword (hashedPassword : BcryptDigest) (password : String) :
    Option String :=
  bcryptCompareHashAndPassword hashedPassword password

/-! ### Users and the user store -/

/-- `Domain.User` / `models.User`: the registered principal. Timestamps are
irrelevant to every claim and are omitted. -/
structure User where
  ID : ObjectID
  Username : String
  Password : BcryptDigest
  Role : String
deriving DecidableEq, Repr

/-- The user store: the `users` collection / in-memory repository, as the
ordered list of inserted users. -/
abbrev Store := List User

/-- `UserRepository.GetByUsername` / `UserService.GetUserByUsername` over an
in-memory store: `FindOne` on the username filter returns the first match;
absence surfaces as the `"user not found"` error. -/
def getUserByUsername (s : Store) (username : String) : Except String User :=
  match s.find? (fun u => u.Username == username) with
  | some u => .ok u
  | none => .error "user not found"

/-- `UserRepository.CountUsers` / `CountDocuments` over an in-memory store. -/
def countUsers (s : Store) : Nat := s.length

/-! ### Registration

`UserUsecase.RegisterUser` (and the behaviorally identical
`UserService.CreateUser`): check uniqueness discarding the lookup error,
hash, count, pick role, insert.

Two embeddings: `registerUser` runs against the in-memory store with its
collaborators inlined; `registerUserOutcomes` keeps the same control flow
but takes the result of each collaborator call as data, so that collaborator
failures (store errors from the lookup, the count, or the insert) are
expressible. -/

/-- `UserRequest` / `Domain.UserRequest`: the registration payload. -/
structure UserRequest where
  Username : String
  Password : String
deriving DecidableEq, Repr

/-- `UserUsecase.RegisterUser` over the in-memory store. `salt` is the
randomness consumed by bcrypt and `oid` the fresh `ObjectID`. Returns the
result paired with the store after the call (unchanged on failure). -/
def registerUser (s : Store) (userReq : UserRequest) (salt : Nat)
    (oid : ObjectID) : Except String User × Store :=
  match (getUserByUsername s userReq.Username).toOption with
  | some _ => (.error "username already exists", s)
  | none =>
    match hashPassword salt userReq.Password with
    | .error _ => (.error "failed to hash password", s)
    | .ok hashedPassword =>
      let role := if countUsers s == 0 then RoleAdmin else RoleUser
      let user : User :=
        { ID := oid, Username := userReq.Username,
          Password := hashedPassword, Role := role }
      (.ok user, s ++ [user])

/-- The results of the collaborator calls `RegisterUser` makes, each as the
Go `(value, error)` pair it returns. -/
structure RegisterCollaborators where
  /-- `uu.userRepo.GetByUsername(userReq.Username)`: the `(user, err)`
  pair. -/
  getByUsername : Option User × Option String
  /-- `uu.passwordService.HashPassword(userReq.Password)`. -/
  hashPassword : Except String BcryptDigest
  /-- `uu.userRepo.CountUsers()`. -/
  countUsers : Except String Nat
  /-- The error of `uu.userRepo.Create(user)` (`none` = success). -/
  create : Option String

/-- `UserUsecase.RegisterUser` with each collaborator call's result supplied
as data: the lookup's error component is discarded (`existingUser, _ :=`),
only `existingUser != nil` is tested, then hash, count, role choice and
insert follow in order, each later error surfaced. -/
def registerUserOutcomes (c : RegisterCollaborators) (userReq : UserRequest)
    (oid : ObjectID) : Except String User :=
  match c.getByUsername.1 with
  | some _ => .error "username already exists"
  | none =>
    match c.hashPassword with
    | .error _ => .error "failed to hash password"
    | .ok hashedPassword =>
      match c.countUsers with
      | .error e => .error e
      | .ok userCount =>
        let role := if userCount == 0 then RoleAdmin else RoleUser
        let user : User :=
          { ID := oid, Username := userReq.Username,
            Password := hashedPassword, Role := role }
        match c.create with
        | some e => .error e
        | none => .ok user

/-! ### Login -/

/-- `Domain.LoginRequest` / `models.LoginRequest`. -/
structure LoginRequest where
  Username : String
  Password : String
deriving DecidableEq, Repr

/-- The credential-checking core of `UserUsecase.LoginUser` /
`UserService.AuthenticateUser`: look up by username, collapsing any lookup
failure to `"invalid credentials"`; compare the password against the stored
digest, collapsing a mismatch to the same `"invalid credentials"`. (The
subsequent token minting of `LoginUser` is `generateToken` below and cannot
fail in the model.) -/
def authenticateUser (s : Store) (loginReq : LoginRequest) :
    Except String User :=
  match getUserByUsername s loginReq.Username with
  | .error _ => .error "invalid credentials"
  | .ok user =>
    match comparePassword user.Password loginReq.Password with
    | some _ => .error "invalid credentials"
    | none => .ok user

/-! ### JWT service

`Infrastructure.JWTService` over `github.com/golang-jwt/jwt/v5`. Tokens are
modelled in decoded form: declared algorithm (header), claims map (payload)
and signature. The HMAC signature is idealized as the pair of the key and
the signed content — recomputation matches exactly when both the key and the
content agree, which models an unforgeable MAC. -/

/-- The signing algorithm a token's header declares. `hs256` is
`jwt.SigningMethodHS256` (an HMAC method); `algNone` is the explicit
`"none"` (unsigned) method; `rs256` stands for any non-HMAC signing method
such as RSA. -/
inductive Alg
  | hs256
  | algNone
  | rs256
deriving DecidableEq, Repr

/-- Whether the method is an `*jwt.SigningMethodHMAC` (the type assertion in
the `Keyfunc` of `ValidateToken`). -/
def Alg.isHMAC : Alg → Bool
  | .hs256 => true
  | _ => false

/-- The `jwt.MapClaims` built by `GenerateToken`: `user_id`, `username`,
`role`, plus Unix-second `iat`/`exp`. -/
structure MapClaims where
  user_id : String
  username : String
  role : String
  iat : Int
  exp : Int
deriving DecidableEq, Repr

/-- An idealized MAC value: the key it was produced with together with the
signed content (header algorithm + payload claims). -/
structure Sig where
  key : String
  alg : Alg
  claims : MapClaims
deriving DecidableEq, Repr

/-- `token.Method.Sign` for the idealized MAC: signing records key and
content. -/
def sign (key : String) (alg : Alg) (claims : MapClaims) : Sig :=
  { key := key, alg := alg, claims := claims }

/-- A decoded JWT: declared algorithm, claims and signature. -/
structure Token where
  alg : Alg
  claims : MapClaims
  sig : Sig
deriving DecidableEq, Repr

/-- The error classes `jwt.Parse` (v5) returns for the cases this model
covers: `tokenUnverifiable` = `ErrTokenUnverifiable` (the `Keyfunc`
returned an error), `signatureInvalid` = `ErrTokenSignatureInvalid`,
`tokenExpired` = `ErrTokenInvalidClaims` wrapping `ErrTokenExpired`. -/
inductive JWTError
  | tokenUnverifiable
  | signatureInvalid
  | tokenExpired
deriving DecidableEq, Repr

/-- The `Keyfunc` closure inside `JWTService.ValidateToken` (identical in
the `AuthMiddleware` of the models-based exercise): release the secret only
for HMAC methods, otherwise return `jwt.ErrSignatureInvalid`, which `Parse`
surfaces as `ErrTokenUnverifiable`. -/
def validateTokenKeyfunc (secret : String) (token : Token) :
    Except JWTError String :=
  if token.alg.isHMAC then .ok secret else .error .tokenUnverifiable

/-- `jwt.Parse` (v5 pipeline) as invoked by `JWTService.ValidateToken` on an
already-decoded token: run the `Keyfunc`; verify the signature with the
returned key (v5 verifies the signature BEFORE validating claims); then
validate claims, where the token is unexpired iff `now` is strictly before
`exp`. On success the embedded claims are returned unchanged. -/
def validateToken (secret : String) (now : Int) (token : Token) :
    Except JWTError MapClaims :=
  match validateTokenKeyfunc secret token with
  | .error e => .error e
  | .ok key =>
    if token.sig = sign key token.alg token.claims then
      if now < token.claims.exp then .ok token.claims
      else .error .tokenExpired
    else .error .signatureInvalid

/-- `JWTService.GenerateToken`: claims from the user's id (hex), username
and role, `iat = now`, `exp = now + 24h` (86400 s), signed HS256 with the
service secret. -/
def generateToken (secret : String) (now : Int) (user : User) : Token :=
  let claims : MapClaims :=
    { user_id := user.ID.hex, username := user.Username, role := user.Role,
      iat := now, exp := now + 86400 }
  { alg := .hs256, claims := claims, sig := sign secret .hs256 claims }

/-- `os.Getenv`: an unset variable reads as the empty string. -/
def osGetenv (env : Option String) : String := env.getD ""

/-- The compiled-in fallback signing secret of `NewJWTService` /
`getJWTSecret`. -/
def defaultJWTSecret : String :=
  "your-super-secret-jwt-key-change-this-in-production"

/-- `NewJWTService` (and `getJWTSecret` of the models-based exercise): read
`JWT_SECRET`; if it is empty, fall back to the compiled-in secret. Returns
the secret the constructed service will sign and verify with; construction
never fails. -/
def newJWTServiceSecret (jwtSecretEnv : Option String) : String :=
  let secret := osGetenv jwtSecretEnv
  if secret = "" then defaultJWTSecret else secret

/-! ### Authentication middleware

`AuthMiddleware.AuthenticateToken` (part of the clean-architecture
exercise; the models-based `AuthMiddleware` is line-for-line the same
stage). The stage is a function of the request's `Authorization` header and
of the injected token validator. -/

/-- The outcome of the authenticate stage: the three 401 short-circuits, or
success with the claim values attached to the request context. -/
inductive AuthResult
  | missingHeader
  | malformedHeader
  | invalidToken
  | authenticated (user_id username role : String)
deriving DecidableEq, Repr

/-- The HTTP status the stage writes (`authenticated` aborts nothing and
lets the chain continue). -/
def AuthResult.status : AuthResult → Nat
  | .missingHeader => 401
  | .malformedHeader => 401
  | .invalidToken => 401
  | .authenticated _ _ _ => 200

/-- Go's `strings.Split` on a one-character separator, over the character
list: consecutive separators yield empty fields and the empty string yields
one empty field, exactly as in Go. -/
def stringsSplitChars (sep : Char) : List Char → List (List Char)
  | [] => [[]]
  | c :: cs =>
    match stringsSplitChars sep cs with
    | [] => [[c]]
    | r :: rs => if c = sep then [] :: r :: rs else (c :: r) :: rs

/-- Go's `strings.Split(s, sep)` for a one-character separator (the
middleware splits on `" "`). -/
def stringsSplit (s : String) (sep : Char) : List String :=
  (stringsSplitChars sep s.data).map (fun l => ⟨l⟩)

/-- `AuthMiddleware.AuthenticateToken`: empty header → 401 missing; split on
`" "`; anything but exactly `["Bearer", token]` → 401 malformed; otherwise
invoke the injected validator on the second part. Returns the outcome
together with whether `ValidateToken` was invoked, so that short-circuiting
before token parsing is observable. -/
def authenticateToken (validate : String → Except JWTError MapClaims)
    (authHeader : String) : AuthResult × Bool :=
  if authHeader = "" then (.missingHeader, false)
  else
    let tokenParts := stringsSplit authHeader ' '
    if tokenParts.length ≠ 2 ∨ tokenParts.head? ≠ some "Bearer" then
      (.malformedHeader, false)
    else
      match tokenParts with
      | [_, tokenString] =>
        match validate tokenString with
        | .error _ => (.invalidToken, true)
        | .ok claims =>
          (.authenticated claims.user_id claims.username claims.role, true)
      | _ => (.malformedHeader, false)

/-! ## Theorems -/

/-- C1: a successful `RegisterUser` call assigns the privileged role
(`"admin"`) exactly when the store counts zero users at the call, and the
standard role (`"user"`) when the store already contains at least one
user. -/
theorem registerUser_first_is_admin (s : Store) (userReq : UserRequest)
    (salt : Nat) (oid : ObjectID) (u : User) (s' : Store)
    (h : registerUser s userReq salt oid = (.ok u, s')) :
    (countUsers s = 0 → u.Role = RoleAdmin) ∧
    (countUsers s ≠ 0 → u.Role = RoleUser) := by
  unfold registerUser at h
  split at h
  · simp at h
  · split at h
    · simp at h
    · simp only [Prod.mk.injEq, Except.ok.injEq] at h
      obtain ⟨hu, -⟩ := h
      subst hu
      constructor <;> intro hc <;> simp [hc]

/-- C1 witness: registering `"alice"` in the empty store yields role
`"admin"`. -/
theorem registerUser_first_is_admin_witness :
    countUsers [] = 0 ∧
    ({ ID := ⟨"0af"⟩, Username := "alice", Password := ⟨0, "pw123456"⟩,
       Role := RoleAdmin } : User).Role = RoleAdmin := by
  refine ⟨rfl, ?_⟩
  exact (registerUser_first_is_admin [] ⟨"alice", "pw123456"⟩ 0 ⟨"0af"⟩
    { ID := ⟨"0af"⟩, Username := "alice", Password := ⟨0, "pw123456"⟩,
      Role := RoleAdmin }
    [{ ID := ⟨"0af"⟩, Username := "alice", Password := ⟨0, "pw123456"⟩,
       Role := RoleAdmin }] rfl).1 rfl

/-- C6: `RegisterUser` with the username of an identity already in the store
fails with `"username already exists"` and returns the store unchanged — no
insert is performed. -/
theorem registerUser_username_taken (s : Store) (userReq : UserRequest)
    (salt : Nat) (oid : ObjectID) (u : User) (hu : u ∈ s)
    (hname : u.Username = userReq.Username) :
    registerUser s userReq salt oid = (.error "username already exists", s) := by
  have hfind : (s.find? (fun v => v.Username == userReq.Username)).isSome := by
    rw [List.find?_isSome]
    exact ⟨u, hu, by simp [hname]⟩
  obtain ⟨v, hv⟩ := Option.isSome_iff_exists.mp hfind
  simp [registerUser, getUserByUsername, hv, Except.toOption]

/-- C6 witness: re-registering `"alice"` fails and leaves the one-user store
unchanged. -/
theorem registerUser_username_taken_witness :
    ({ ID := ⟨"0af"⟩, Username := "alice", Password := ⟨0, "pw"⟩,
       Role := RoleAdmin } : User) ∈
      ([{ ID := ⟨"0af"⟩, Username := "alice", Password := ⟨0, "pw"⟩,
          Role := RoleAdmin }] : Store) ∧
    registerUser
      [{ ID := ⟨"0af"⟩, Username := "alice", Password := ⟨0, "pw"⟩,
         Role := RoleAdmin }] ⟨"alice", "secret2"⟩ 1 ⟨"0b0"⟩ =
      (.error "username already exists",
       [{ ID := ⟨"0af"⟩, Username := "alice", Password := ⟨0, "pw"⟩,
          Role := RoleAdmin }]) :=
  ⟨List.mem_singleton.mpr rfl,
   registerUser_username_taken
     [{ ID := ⟨"0af"⟩, Username := "alice", Password := ⟨0, "pw"⟩,
        Role := RoleAdmin }] ⟨"alice", "secret2"⟩ 1 ⟨"0b0"⟩
     { ID := ⟨"0af"⟩, Username := "alice", Password := ⟨0, "pw"⟩,
       Role := RoleAdmin } (List.mem_singleton.mpr rfl) rfl⟩

/-- C10: `RegisterUser` discards the error of the username lookup: when
`GetByUsername` returns no identity together with an error (for example a
store failure), the call behaves exactly as if the lookup had silently found
nothing, and — when the remaining collaborators succeed — it hashes, counts,
inserts and returns the new user instead of surfacing the lookup error. -/
theorem registerUser_ignores_lookup_error (c : RegisterCollaborators)
    (userReq : UserRequest) (oid : ObjectID) (err : String)
    (hlookup : c.getByUsername = (none, some err))
    (digest : BcryptDigest) (hhash : c.hashPassword = .ok digest)
    (n : Nat) (hcount : c.countUsers = .ok n) (hcreate : c.create = none) :
    registerUserOutcomes c userReq oid =
      registerUserOutcomes { c with getByUsername := (none, none) } userReq oid ∧
    registerUserOutcomes c userReq oid =
      .ok { ID := oid, Username := userReq.Username, Password := digest,
            Role := if n == 0 then RoleAdmin else RoleUser } := by
  unfold registerUserOutcomes
  rw [hlookup, hhash, hcount, hcreate]
  exact ⟨rfl, rfl⟩

/-- C10 witness: a lookup failing with `"store unavailable"` (and no
identity) does not stop registration; the user is inserted. -/
theorem registerUser_ignores_lookup_error_witness :
    ({ getByUsername := (none, some "store unavailable"),
       hashPassword := .ok ⟨0, "pw"⟩, countUsers := .ok 0,
       create := none } : RegisterCollaborators).getByUsername =
      (none, some "store unavailable") ∧
    registerUserOutcomes
      { getByUsername := (none, some "store unavailable"),
        hashPassword := .ok ⟨0, "pw"⟩, countUsers := .ok 0, create := none }
      ⟨"alice", "pw"⟩ ⟨"0af"⟩ =
      .ok { ID := ⟨"0af"⟩, Username := "alice", Password := ⟨0, "pw"⟩,
            Role := if 0 == 0 then RoleAdmin else RoleUser } :=
  ⟨rfl,
   (registerUser_ignores_lookup_error
     { getByUsername := (none, some "store unavailable"),
       hashPassword := .ok ⟨0, "pw"⟩, countUsers := .ok 0, create := none }
     ⟨"alice", "pw"⟩ ⟨"0af"⟩ "store unavailable" rfl ⟨0, "pw"⟩ rfl 0 rfl rfl).2⟩

/-- C5: a login whose username matches no stored identity and a login whose
username is found but whose password does not match the stored digest both
fail, and with the identical error value `"invalid credentials"`. -/
theorem loginUser_failures_indistinguishable (s : Store)
    (reqMissing reqWrong : LoginRequest)
    (hmissing : ∀ u ∈ s, u.Username ≠ reqMissing.Username)
    (stored : User)
    (hfound : getUserByUsername s reqWrong.Username = .ok stored)
    (hpw : stored.Password.secret ≠ reqWrong.Password) :
    authenticateUser s reqMissing = .error "invalid credentials" ∧
    authenticateUser s reqWrong = .error "invalid credentials" ∧
    authenticateUser s reqMissing = authenticateUser s reqWrong := by
  have h1 : authenticateUser s reqMissing = .error "invalid credentials" := by
    have hnone : s.find? (fun v => v.Username == reqMissing.Username) = none := by
      rw [List.find?_eq_none]
      intro u hu
      simp [hmissing u hu]
    simp [authenticateUser, getUserByUsername, hnone]
  have hcmp : ∃ e, comparePassword stored.Password reqWrong.Password = some e := by
    unfold comparePassword bcryptCompareHashAndPassword
    by_cases hlen : reqWrong.Password.utf8ByteSize > 72
    · exact ⟨_, if_pos hlen⟩
    · exact ⟨_, by rw [if_neg hlen, if_neg hpw]⟩
  obtain ⟨e, he⟩ := hcmp
  have h2 : authenticateUser s reqWrong = .error "invalid credentials" := by
    simp [authenticateUser, hfound, he]
  exact ⟨h1, h2, h1.trans h2.symm⟩

/-- C5 witness: with `"alice"` stored, logging in as `"bob"` and logging in
as `"alice"` with the wrong password both return
`"invalid credentials"`. -/
theorem loginUser_failures_indistinguishable_witness :
    (∀ u ∈ ([{ ID := ⟨"0af"⟩, Username := "alice", Password := ⟨0, "pw"⟩,
               Role := RoleAdmin }] : Store),
       u.Username ≠ "bob") ∧
    getUserByUsername
      [{ ID := ⟨"0af"⟩, Username := "alice", Password := ⟨0, "pw"⟩,
         Role := RoleAdmin }] "alice" =
      .ok { ID := ⟨"0af"⟩, Username := "alice", Password := ⟨0, "pw"⟩,
            Role := RoleAdmin } ∧
    authenticateUser
      [{ ID := ⟨"0af"⟩, Username := "alice", Password := ⟨0, "pw"⟩,
         Role := RoleAdmin }] ⟨"bob", "pw"⟩ = .error "invalid credentials" ∧
    authenticateUser
      [{ ID := ⟨"0af"⟩, Username := "alice", Password := ⟨0, "pw"⟩,
         Role := RoleAdmin }] ⟨"alice", "wrong"⟩ = .error "invalid credentials" := by
  refine ⟨by decide, rfl, ?_⟩
  have h := loginUser_failures_indistinguishable
    [{ ID := ⟨"0af"⟩, Username := "alice", Password := ⟨0, "pw"⟩,
       Role := RoleAdmin }] ⟨"bob", "pw"⟩ ⟨"alice", "wrong"⟩
    (by decide)
    { ID := ⟨"0af"⟩, Username := "alice", Password := ⟨0, "pw"⟩,
      Role := RoleAdmin } rfl (by decide)
  exact ⟨h.1, h.2.1⟩

/-- C7: for any secret within bcrypt's 72-byte bound, hashing succeeds, the
digest verifies against the same secret, and the digest fails to verify
against the secret with `"x"` appended. -/
theorem comparePassword_hashPassword_roundtrip (salt : Nat) (secret : String)
    (h : secret.utf8ByteSize ≤ 72) :
    ∃ digest, hashPassword salt secret = .ok digest ∧
      comparePassword digest secret = none ∧
      comparePassword digest (secret ++ "x") ≠ none := by
  refine ⟨⟨salt, secret⟩, ?_, ?_, ?_⟩
  · unfold hashPassword bcryptGenerateFromPassword
    rw [if_neg (by omega)]
  · unfold comparePassword bcryptCompareHashAndPassword
    rw [if_neg (by omega)]
    simp
  · unfold comparePassword bcryptCompareHashAndPassword
    by_cases hx : (secret ++ "x").utf8ByteSize > 72
    · rw [if_pos hx]
      simp
    · rw [if_neg hx]
      have hne : secret ≠ secret ++ "x" := by
        intro heq
        have hlen := congrArg String.length heq
        rw [String.length_append,
          show ("x" : String).length = 1 from rfl] at hlen
        omega
      rw [if_neg hne]
      simp

/-- C7 witness: hashing `"pw123456"` verifies against `"pw123456"` and fails
against `"pw123456x"`. -/
theorem comparePassword_hashPassword_roundtrip_witness :
    ("pw123456" : String).utf8ByteSize ≤ 72 ∧
    (∃ digest, hashPassword 0 "pw123456" = .ok digest ∧
      comparePassword digest "pw123456" = none ∧
      comparePassword digest ("pw123456" ++ "x") ≠ none) :=
  ⟨by decide, comparePassword_hashPassword_roundtrip 0 "pw123456" (by decide)⟩

/-- C2: at any instant strictly before expiry (issuance + 24 h), validating
a token generated for a user with the same secret succeeds and returns
claims whose `user_id`, `username` and `role` are the user's id (hex form),
username and role, unchanged. -/
theorem validateToken_generateToken_roundtrip (secret : String)
    (issuedAt now : Int) (user : User) (h : now < issuedAt + 86400) :
    ∃ claims,
      validateToken secret now (generateToken secret issuedAt user) =
        .ok claims ∧
      claims.user_id = user.ID.hex ∧ claims.username = user.Username ∧
      claims.role = user.Role := by
  refine ⟨{ user_id := user.ID.hex, username := user.Username,
            role := user.Role, iat := issuedAt, exp := issuedAt + 86400 },
    ?_, rfl, rfl, rfl⟩
  simp [validateToken, generateToken, validateTokenKeyfunc, Alg.isHMAC, sign, h]

/-- C2 witness: a token issued at time 0 for `"alice"` verifies at time 100
with the identity's claims. -/
theorem validateToken_generateToken_roundtrip_witness :
    (100 : Int) < 0 + 86400 ∧
    (∃ claims,
      validateToken "s" 100
        (generateToken "s" 0
          { ID := ⟨"0af"⟩, Username := "alice", Password := ⟨0, "pw"⟩,
            Role := RoleAdmin }) = .ok claims ∧
      claims.user_id = (ObjectID.mk "0af").hex ∧ claims.username = "alice" ∧
      claims.role = RoleAdmin) :=
  ⟨by decide,
   validateToken_generateToken_roundtrip "s" 0 100
     { ID := ⟨"0af"⟩, Username := "alice", Password := ⟨0, "pw"⟩,
       Role := RoleAdmin } (by decide)⟩

/-- C3 counterexample: an expired token whose signature was produced with a
different secret fails with the SIGNATURE error, not the expiry error — jwt
v5 verifies the signature before validating claims, so expiry does not
dominate "regardless of signature validity" as claimed. -/
theorem validateToken_expired_counterexample :
    ({ user_id := "i", username := "n", role := "r", iat := 0, exp := 0 }
        : MapClaims).exp < (1 : Int) ∧
    validateToken "s" 1
      { alg := .hs256,
        claims := { user_id := "i", username := "n", role := "r",
                    iat := 0, exp := 0 },
        sig := sign "forge" .hs256
          { user_id := "i", username := "n", role := "r",
            iat := 0, exp := 0 } } = .error .signatureInvalid ∧
    validateToken "s" 1
      { alg := .hs256,
        claims := { user_id := "i", username := "n", role := "r",
                    iat := 0, exp := 0 },
        sig := sign "forge" .hs256
          { user_id := "i", username := "n", role := "r",
            iat := 0, exp := 0 } } ≠ .error .tokenExpired := by
  refine ⟨by decide, rfl, ?_⟩
  intro hcontra
  exact JWTError.noConfusion (Except.error.inj hcontra)

/-- C3 (amended): for a token declaring an HMAC algorithm whose signature is
valid under the verification secret, if the expiry instant is in the past at
verification time then validation fails with the expiry error. (An expired
token with an invalid signature fails with the signature error instead.) -/
theorem validateToken_expired (secret : String) (now : Int) (token : Token)
    (halg : token.alg.isHMAC = true)
    (hsig : token.sig = sign secret token.alg token.claims)
    (hexp : token.claims.exp < now) :
    validateToken secret now token = .error .tokenExpired := by
  have hnow : ¬ now < token.claims.exp := by omega
  simp [validateToken, validateTokenKeyfunc, halg, hsig, hnow]

/-- C3 witness: a correctly signed HS256 token with `exp = 0` fails with the
expiry error at time 1. -/
theorem validateToken_expired_witness :
    (Alg.hs256.isHMAC = true) ∧
    ({ user_id := "i", username := "n", role := "r", iat := 0, exp := 0 }
        : MapClaims).exp < (1 : Int) ∧
    validateToken "s" 1
      { alg := .hs256,
        claims := { user_id := "i", username := "n", role := "r",
                    iat := 0, exp := 0 },
        sig := sign "s" .hs256
          { user_id := "i", username := "n", role := "r",
            iat := 0, exp := 0 } } = .error .tokenExpired :=
  ⟨rfl, by decide,
   validateToken_expired "s" 1
     { alg := .hs256,
       claims := { user_id := "i", username := "n", role := "r",
                   iat := 0, exp := 0 },
       sig := sign "s" .hs256
         { user_id := "i", username := "n", role := "r",
           iat := 0, exp := 0 } } rfl rfl (by decide)⟩

/-- C4: any token whose declared algorithm is not an HMAC variant — in
particular the explicit `"none"` algorithm — is rejected: the `Keyfunc`
refuses to release the secret, and `Parse` surfaces that as the
unverifiable-token error, whatever the embedded claims are. -/
theorem validateToken_rejects_non_hmac (secret : String) (now : Int)
    (token : Token) (h : token.alg.isHMAC = false) :
    validateTokenKeyfunc secret token = .error .tokenUnverifiable ∧
    validateToken secret now token = .error .tokenUnverifiable := by
  have hk : validateTokenKeyfunc secret token = .error .tokenUnverifiable := by
    simp [validateTokenKeyfunc, h]
  refine ⟨hk, ?_⟩
  unfold validateToken
  rw [hk]

/-- C4 witness: a token declaring algorithm `none` with well-formed claims
is rejected as unverifiable. -/
theorem validateToken_rejects_non_hmac_witness :
    (Alg.algNone.isHMAC = false) ∧
    validateToken "s" 0
      { alg := .algNone,
        claims := { user_id := "i", username := "n", role := "r",
                    iat := 0, exp := 999999 },
        sig := sign "s" .algNone
          { user_id := "i", username := "n", role := "r",
            iat := 0, exp := 999999 } } = .error .tokenUnverifiable :=
  ⟨rfl,
   (validateToken_rejects_non_hmac "s" 0
     { alg := .algNone,
       claims := { user_id := "i", username := "n", role := "r",
                   iat := 0, exp := 999999 },
       sig := sign "s" .algNone
         { user_id := "i", username := "n", role := "r",
           iat := 0, exp := 999999 } } rfl).2⟩

/-- C9: when `JWT_SECRET` is unset or set to the empty string, the service
constructor silently falls back to the compiled-in secret
`"your-super-secret-jwt-key-change-this-in-production"` (construction never
fails). -/
theorem newJWTServiceSecret_default_fallback (env : Option String)
    (h : env = none ∨ env = some "") :
    newJWTServiceSecret env = defaultJWTSecret := by
  rcases h with h | h <;> subst h <;> rfl

/-- C9 witness: with `JWT_SECRET` unset the secret is the compiled-in
default. -/
theorem newJWTServiceSecret_default_fallback_witness :
    ((none : Option String) = none ∨ (none : Option String) = some "") ∧
    newJWTServiceSecret none = defaultJWTSecret :=
  ⟨Or.inl rfl, newJWTServiceSecret_default_fallback none (Or.inl rfl)⟩

/-- C8: a request whose Authorization header is present but does not split
into exactly two space-separated parts with first part `"Bearer"` is
rejected with the malformed-header 401 response, and the token validator is
never invoked — whatever validator is injected. -/
theorem authenticateToken_malformed_header
    (validate : String → Except JWTError MapClaims) (authHeader : String)
    (hne : authHeader ≠ "")
    (hshape : (stringsSplit authHeader ' ').length ≠ 2 ∨
      (stringsSplit authHeader ' ').head? ≠ some "Bearer") :
    authenticateToken validate authHeader = (.malformedHeader, false) ∧
    (authenticateToken validate authHeader).1.status = 401 := by
  have hmain : authenticateToken validate authHeader =
      (.malformedHeader, false) := by
    unfold authenticateToken
    rw [if_neg hne]
    exact if_pos hshape
  exact ⟨hmain, by rw [hmain]; rfl⟩

/-- C8 witness: the header `"Token abc"` (wrong scheme) yields the 401
malformed-header response without invoking the validator. -/
theorem authenticateToken_malformed_header_witness :
    ("Token abc" ≠ "") ∧
    ((stringsSplit "Token abc" ' ').length ≠ 2 ∨
      (stringsSplit "Token abc" ' ').head? ≠ some "Bearer") ∧
    authenticateToken (fun _ => .error .tokenExpired) "Token abc" =
      (.malformedHeader, false) ∧
    (authenticateToken (fun _ => .error .tokenExpired) "Token abc").1.status
      = 401 :=
  ⟨by decide, by decide,
   authenticateToken_malformed_header (fun _ => .error .tokenExpired)
     "Token abc" (by decide) (by decide)⟩

end TaskManager
